import Mathlib

/-!
Verification of the Novacast authentication backend core against its
specification.  The TypeScript controllers under `src/controllers` are
shallowly embedded as Lean functions:

* request bodies are JSON scalars/objects (`JValue`), a missing field is
  `Option.none`;
* the relational Credential Store is a `List UserRow`; a parameterized
  `SELECT ... WHERE col = $1` is a `List.filter` with exact string
  equality, mirroring Postgres text `=`;
* the bcrypt hasher (`bcrypt.hash(p, 10)` / `bcrypt.compare`) and the
  token signer (`jwt.sign`) are external libraries, so the controllers
  are parameterized over them;
* a handler either sends one HTTP response, returns without sending one
  (`ControllerOutcome.noResponse`), or throws a synchronous error outside
  every `try` block (`ControllerOutcome.exception`, e.g. calling
  `.trim()` on a non-string);
* a store-level failure of the `try` block is modelled by the
  `dbErr : Option String` parameter: `some e` makes the `catch` branch
  run with error text `e`, `none` lets the query compute from the store.
-/

/-- JSON value of a parsed request body field (scalars and flat objects;
`NaN` is not modelled, every other JS falsy value is). -/
inductive JValue where
  | jNull
  | jBool (b : Bool)
  | jNum (n : Int)
  | jStr (s : String)
  | jObj (fields : List (String × JValue))

/-- JavaScript truthiness of a body field; a missing field (`none`,
i.e. `undefined`) is falsy, as are `null`, `false`, `0` and `""`. -/
def optTruthy : Option JValue → Bool
  | none => false
  | some .jNull => false
  | some (.jBool b) => b
  | some (.jNum n) => n != 0
  | some (.jStr s) => s != ""
  | some (.jObj _) => true

/-- JavaScript `String.prototype.trim`: strip leading and trailing
whitespace (structurally recursive so that concrete calls evaluate). -/
def jsStrTrim (s : String) : String :=
  ⟨((s.data.dropWhile Char.isWhitespace).reverse.dropWhile
      Char.isWhitespace).reverse⟩

/-- Result of evaluating `v.trim()` in JavaScript: the trimmed string
when `v` is a string, `none` (a thrown `TypeError`) otherwise. -/
def jsTrim : Option JValue → Option String
  | some (.jStr s) => some (jsStrTrim s)
  | _ => none

/-- Evaluation of `v1.trim() === '' || v2.trim() === '' || ...` with
JavaScript left-to-right short-circuiting: `Except.error ()` models the
`TypeError` thrown by `.trim()` on the first non-string value reached. -/
def anyTrimEmpty : List (Option JValue) → Except Unit Bool
  | [] => .ok false
  | v :: rest =>
    match jsTrim v with
    | none => .error ()
    | some t => if t = "" then .ok true else anyTrimEmpty rest

/-- String payload of a body field known to be a string (default `""`
is never reached on the code paths that use it). -/
def getStr : Option JValue → String
  | some (.jStr s) => s
  | _ => ""

/-- Row of the `users` table: `id`, `created_at` and `updated_at` are
assigned by the store at insert time. -/
structure UserRow where
  id : Nat
  username : String
  email : String
  handle : String
  password_hash : String
  created_at : Nat
  updated_at : Nat

/-- HTTP response: status code plus flat JSON body. -/
structure HttpResponse where
  status : Nat
  body : List (String × JValue)

/-- Outcome of one handler invocation. -/
inductive ControllerOutcome where
  | response (r : HttpResponse)
  | noResponse
  | exception

/-- Status code of the sent response, `none` when nothing was sent. -/
def ControllerOutcome.statusOf : ControllerOutcome → Option Nat
  | .response r => some r.status
  | _ => none

/-- Parsed body of a `POST /register` request. -/
structure RegisterRequest where
  username : Option JValue
  email : Option JValue
  password : Option JValue
  handle : Option JValue

/-- Parsed body of a `POST /login` request. -/
structure LoginRequest where
  identifier : Option JValue
  password : Option JValue

/-- Row appended by
`INSERT INTO users(username, email, password_hash, handle) VALUES ($1,$2,$3,$4)`;
the store assigns the surrogate id and both timestamps. -/
def insertUser (store : List UserRow)
    (username email password_hash handle : String)
    (freshId now : Nat) : List UserRow :=
  store ++ [{ id := freshId, username := username, email := email,
              handle := handle, password_hash := password_hash,
              created_at := now, updated_at := now }]

/-- Embedding of `registerUser` (auth.controller.ts).  `hash p c` stands
for `await bcrypt.hash(p, c)`.  Returns the outcome together with the
store state after the call. -/
def registerUser (hash : String → Nat → String) (req : RegisterRequest)
    (store : List UserRow) (dbErr : Option String) (freshId now : Nat) :
    ControllerOutcome × List UserRow :=
  if !(optTruthy req.username && optTruthy req.email &&
       optTruthy req.password && optTruthy req.handle) then
    (.response ⟨400, [("message", .jStr "All fields are required")]⟩, store)
  else
    match anyTrimEmpty [req.username, req.email, req.password, req.handle] with
    | .error _ => (.exception, store)
    | .ok true =>
      (.response ⟨400, [("message", .jStr "Fields cannot be empty")]⟩, store)
    | .ok false =>
      match dbErr with
      | some e =>
        (.response ⟨500, [("error", .jStr ("" ++ e))]⟩, store)
      | none =>
        let hashedPassword := hash (getStr req.password) 10
        (.response ⟨201, [("message", .jStr "User created successfully")]⟩,
         insertUser store (getStr req.username) (getStr req.email)
           hashedPassword (getStr req.handle) freshId now)

/-- Rows of `SELECT * FROM users WHERE email = $1 OR username = $1`. -/
def loginQuery (store : List UserRow) (identifier : String) : List UserRow :=
  store.filter (fun r => r.email == identifier || r.username == identifier)

/-- Stringification `pg` applies to a non-string query parameter. -/
def paramString : Option JValue → String
  | some (.jStr s) => s
  | some (.jNum n) => toString n
  | some (.jBool b) => if b then "true" else "false"
  | some .jNull => ""
  | some (.jObj _) => ""
  | none => ""

/-- Response user object assembled by `loginUser` under the comment
`Remove sensitive data from user object`. -/
def sanitizedUser (u : UserRow) : List (String × JValue) :=
  [("id", .jNum u.id), ("username", .jStr u.username),
   ("email", .jStr u.email), ("handle", .jStr u.handle),
   ("created_at", .jNum u.created_at), ("updated_at", .jNum u.updated_at)]

/-- Embedding of `loginUser` (auth.controller.ts).  `compare p h` stands
for `await bcrypt.compare(p, h)`; `sign id u e` for
`jwt.sign({id, username, email}, JWT_SECRET)`; `bcryptErr` for the error
text when `bcrypt.compare` rejects a non-string password (caught by the
handler's `catch`, hence a 500).  Read-only on the store. -/
def loginUser (compare : String → String → Bool)
    (sign : Nat → String → String → String) (bcryptErr : String)
    (req : LoginRequest) (store : List UserRow) (dbErr : Option String) :
    ControllerOutcome :=
  if !(optTruthy req.identifier && optTruthy req.password) then
    .response ⟨400, [("error", .jStr "Identifier and password are required")]⟩
  else
    match dbErr with
    | some e => .response ⟨500, [("error", .jStr ("Server error: " ++ e))]⟩
    | none =>
      match (loginQuery store (paramString req.identifier)).head? with
      | none => .response ⟨401, [("error", .jStr "Invalid credentials")]⟩
      | some user =>
        match req.password with
        | some (.jStr password) =>
          if !(compare password user.password_hash) then
            .response ⟨401, [("error", .jStr "Invalid credentials")]⟩
          else
            .response ⟨200,
              [("token", .jStr (sign user.id user.username user.email)),
               ("user", .jObj (sanitizedUser user))]⟩
        | _ =>
          .response ⟨500, [("error", .jStr ("Server error: " ++ bcryptErr))]⟩

/-- Validation shared by the three availability checkers:
`!v || typeof v !== 'string' || v.trim() === ''` is false exactly when
the field is a string whose trim is non-empty. -/
def isValidField : Option JValue → Bool
  | some (.jStr s) => jsStrTrim s != ""
  | _ => false

/-- Rows of `SELECT username FROM users WHERE username = $1`. -/
def selectUsername (store : List UserRow) (v : String) : List String :=
  (store.filter (fun r => r.username == v)).map (fun r => r.username)

/-- Rows of `SELECT email FROM users WHERE email = $1`. -/
def selectEmail (store : List UserRow) (v : String) : List String :=
  (store.filter (fun r => r.email == v)).map (fun r => r.email)

/-- Rows of `SELECT handle FROM users WHERE handle = $1`. -/
def selectHandle (store : List UserRow) (v : String) : List String :=
  (store.filter (fun r => r.handle == v)).map (fun r => r.handle)

/-- Embedding of `checkUsernameAvailability`
(user-validation.controller.ts, validated revision).  `isDev` is
`NODE_ENVIRONMENT.isDev`; it only gates a `console.log`. -/
def checkUsernameAvailability (isDev : Bool) (username : Option JValue)
    (store : List UserRow) (dbErr : Option String) : ControllerOutcome :=
  if !(isValidField username) then
    .response ⟨400,
      [("error", .jStr "Username is required and must be a non-empty string")]⟩
  else
    match dbErr with
    | some e =>
      .response ⟨500,
        [("error", .jStr
          ("user-validation.controller.ts:22 checkUsernameAvailability => Server Error => "
            ++ e))]⟩
    | none =>
      let v := getStr username
      let rowExists := decide (0 < (selectUsername store v).length)
      let _ := isDev
      .response ⟨200,
        [("username", .jStr v), ("exists", .jBool rowExists),
         ("available", .jBool (!rowExists))]⟩

/-- Embedding of `checkEmailAvailability`
(user-validation.controller.ts, validated revision). -/
def checkEmailAvailability (isDev : Bool) (email : Option JValue)
    (store : List UserRow) (dbErr : Option String) : ControllerOutcome :=
  if !(isValidField email) then
    .response ⟨400,
      [("error", .jStr "Email is required and must be a non-empty string")]⟩
  else
    match dbErr with
    | some e =>
      .response ⟨500,
        [("error", .jStr
          ("user-validation.controller.ts:62 checkEmailAvailability => Server Error => "
            ++ e))]⟩
    | none =>
      let v := getStr email
      let rowExists := decide (0 < (selectEmail store v).length)
      let _ := isDev
      .response ⟨200,
        [("email", .jStr v), ("exists", .jBool rowExists),
         ("available", .jBool (!rowExists))]⟩

/-- Embedding of `checkHandleAvailability` (handle-check revision of
user-validation.controller.ts).  In the source the `res.json({handle,
exists, available})` call sits INSIDE the `if (NODE_ENVIRONMENT.isDev)`
block, so outside the dev environment the handler returns without
sending any response. -/
def checkHandleAvailability (isDev : Bool) (handle : Option JValue)
    (store : List UserRow) (dbErr : Option String) : ControllerOutcome :=
  if !(isValidField handle) then
    .response ⟨400,
      [("error", .jStr "Handle is required and it must be a non-empty string")]⟩
  else
    match dbErr with
    | some e =>
      .response ⟨500,
        [("error", .jStr
          ("user-validation.controller.ts:112 checkHandleAvailability => Server Error => "
            ++ e))]⟩
    | none =>
      let v := getStr handle
      let rowExists := decide (0 < (selectHandle store v).length)
      if isDev then
        .response ⟨200,
          [("handle", .jStr v), ("exists", .jBool rowExists),
           ("available", .jBool (!rowExists))]⟩
      else
        .noResponse

/-- Field on which `registerUser` cannot throw a `TypeError`: either a
string (has `.trim`) or a falsy value (stopped by the first check). -/
def strOrFalsy (f : Option JValue) : Bool :=
  match f with
  | some (.jStr _) => true
  | f => !(optTruthy f)

/-- Decidable restatement of claim C1 about a login response: the body's
`user` entry is an object whose keys are exactly
`id, username, email, handle, created_at, updated_at` and in particular
never include `password_hash`. -/
def userObjFieldsOk (r : HttpResponse) : Bool :=
  match r.body.lookup "user" with
  | some (.jObj fields) =>
    (fields.map Prod.fst ==
      ["id", "username", "email", "handle", "created_at", "updated_at"]) &&
    !((fields.map Prod.fst).contains "password_hash")
  | _ => false

/-- Concrete stand-in for `bcrypt.hash` used by witnesses: injective in
the password and visibly distinct from it. -/
def hash0 : String → Nat → String :=
  fun p c => "$2b$" ++ toString c ++ "$" ++ p

/-- Concrete stand-in for `bcrypt.compare` matching `hash0` at cost 10. -/
def compare0 : String → String → Bool :=
  fun p hashed => hashed == hash0 p 10

/-- Concrete stand-in for `jwt.sign` used by witnesses. -/
def sign0 : Nat → String → String → String :=
  fun i usern em => "tok." ++ toString i ++ "." ++ usern ++ "." ++ em

/-- Concrete stored user for witnesses: password `"pw"` hashed by
`hash0`. -/
def demoRow : UserRow :=
  { id := 1, username := "alice", email := "alice@x.com", handle := "@alice",
    password_hash := hash0 "pw" 10, created_at := 0, updated_at := 0 }

/-! ### Helper lemmas -/

theorem isValidField_jStr (s : String) :
    isValidField (some (.jStr s)) = true ↔ jsStrTrim s ≠ "" := by
  simp [isValidField]

theorem anyTrimEmpty_ok_false_iff (l : List (Option JValue)) :
    anyTrimEmpty l = .ok false ↔ ∀ f ∈ l, isValidField f = true := by
  induction l with
  | nil => simp [anyTrimEmpty]
  | cons v rest ih =>
    rcases v with _ | v
    · simp [anyTrimEmpty, jsTrim, isValidField]
    · cases v with
      | jStr s =>
        by_cases hs : jsStrTrim s = ""
        · simp [anyTrimEmpty, jsTrim, hs, isValidField]
        · simp [anyTrimEmpty, jsTrim, hs, isValidField, ih]
      | jNull => simp [anyTrimEmpty, jsTrim, isValidField]
      | jBool b => simp [anyTrimEmpty, jsTrim, isValidField]
      | jNum n => simp [anyTrimEmpty, jsTrim, isValidField]
      | jObj fs => simp [anyTrimEmpty, jsTrim, isValidField]

theorem anyTrimEmpty_ne_error (l : List (Option JValue))
    (h : ∀ f ∈ l, (jsTrim f).isSome = true) :
    ∃ b, anyTrimEmpty l = .ok b := by
  induction l with
  | nil => exact ⟨false, rfl⟩
  | cons v rest ih =>
    have hv := h v (List.mem_cons_self v rest)
    rcases hs : jsTrim v with _ | t
    · rw [hs] at hv; simp at hv
    · by_cases ht : t = ""
      · exact ⟨true, by simp [anyTrimEmpty, hs, ht]⟩
      · obtain ⟨b, hb⟩ := ih (fun f hf => h f (List.mem_cons_of_mem v hf))
        exact ⟨b, by simp [anyTrimEmpty, hs, ht, hb]⟩

theorem head_filter_eq_of_unique {α : Type} (p : α → Bool) (l : List α)
    (u : α) (hu : u ∈ l) (hp : p u = true)
    (huniq : ∀ v ∈ l, p v = true → v = u) :
    (l.filter p).head? = some u := by
  induction l with
  | nil => cases hu
  | cons a t ih =>
    by_cases ha : p a = true
    · have hau : a = u := huniq a (List.mem_cons_self a t) ha
      subst hau
      simp [List.filter_cons, ha]
    · have hau : a ≠ u := fun h => ha (h ▸ hp)
      have hut : u ∈ t := by
        rcases List.mem_cons.mp hu with h | h
        · exact absurd h.symm hau
        · exact h
      have := ih hut (fun v hv hpv => huniq v (List.mem_cons_of_mem a hv) hpv)
      simpa [List.filter_cons, ha] using this

theorem length_filter_pos_iff {α : Type} (p : α → Bool) (l : List α) :
    0 < (l.filter p).length ↔ ∃ r ∈ l, p r = true := by
  rw [List.length_pos]
  constructor
  · intro h
    rcases List.exists_mem_of_ne_nil _ h with ⟨x, hx⟩
    have := List.mem_filter.mp hx
    exact ⟨x, this.1, this.2⟩
  · rintro ⟨r, hr, hpr⟩ hnil
    have : r ∈ l.filter p := List.mem_filter.mpr ⟨hr, hpr⟩
    rw [hnil] at this
    cases this

theorem registerUser_valid_eq (hash : String → Nat → String)
    (u e p h : String) (store : List UserRow) (freshId now : Nat)
    (hu : jsStrTrim u ≠ "") (he : jsStrTrim e ≠ "") (hp : jsStrTrim p ≠ "")
    (hh : jsStrTrim h ≠ "") :
    registerUser hash
      ⟨some (.jStr u), some (.jStr e), some (.jStr p), some (.jStr h)⟩
      store none freshId now =
    (.response ⟨201, [("message", .jStr "User created successfully")]⟩,
     store ++ [{ id := freshId, username := u, email := e, handle := h,
                 password_hash := hash p 10, created_at := now,
                 updated_at := now }]) := by
  have hu' : u ≠ "" := fun h0 => hu (by rw [h0]; decide)
  have he' : e ≠ "" := fun h0 => he (by rw [h0]; decide)
  have hp' : p ≠ "" := fun h0 => hp (by rw [h0]; decide)
  have hh' : h ≠ "" := fun h0 => hh (by rw [h0]; decide)
  simp [registerUser, optTruthy, anyTrimEmpty, jsTrim, getStr, insertUser,
    hu, he, hp, hh, hu', he', hp', hh']

theorem jsTrim_isSome_of_strOrFalsy_truthy (f : Option JValue)
    (h1 : strOrFalsy f = true) (h2 : optTruthy f = true) :
    (jsTrim f).isSome = true := by
  rcases f with _ | v
  · simp [optTruthy] at h2
  · cases v <;> simp_all [strOrFalsy, optTruthy, jsTrim]

/-! ### Claims -/

/-- C1: for every successful Login (HTTP 200 response), the returned
`user` object contains exactly the keys
`id, username, email, handle, created_at, updated_at` and in particular
never a `password_hash` key. -/
theorem login_success_user_object_fields
    (compare : String → String → Bool)
    (sign : Nat → String → String → String) (bcryptErr : String)
    (req : LoginRequest) (store : List UserRow) (dbErr : Option String)
    (r : HttpResponse)
    (hresp : loginUser compare sign bcryptErr req store dbErr = .response r)
    (h200 : r.status = 200) :
    userObjFieldsOk r = true := by
  unfold loginUser at hresp
  split at hresp
  · injection hresp with h; subst h; simp at h200
  · split at hresp
    · injection hresp with h; subst h; simp at h200
    · split at hresp
      · injection hresp with h; subst h; simp at h200
      · split at hresp
        · split at hresp
          · injection hresp with h; subst h; simp at h200
          · injection hresp with h; subst h; rfl
        · injection hresp with h; subst h; simp at h200

/-- Witness for C1: a concrete successful login of `demoRow`. -/
theorem login_success_user_object_fields_witness :
    userObjFieldsOk
      ⟨200, [("token", .jStr (sign0 1 "alice" "alice@x.com")),
             ("user", .jObj (sanitizedUser demoRow))]⟩ = true :=
  login_success_user_object_fields compare0 sign0 ""
    ⟨some (.jStr "alice"), some (.jStr "pw")⟩ [demoRow] none
    ⟨200, [("token", .jStr (sign0 1 "alice" "alice@x.com")),
           ("user", .jObj (sanitizedUser demoRow))]⟩ rfl rfl

/-- C2 (code bug): a valid handle-check with a successful store lookup
sends NO response outside the dev environment — the `res.json` call is
inside the `if (NODE_ENVIRONMENT.isDev)` block — while in dev it sends
the specified 200 body.  The spec and the sibling endpoints show the
200 response was intended in every environment. -/
theorem checkHandle_no_response_outside_dev :
    checkHandleAvailability false (some (.jStr "alice")) [] none =
      .noResponse ∧
    checkHandleAvailability true (some (.jStr "alice")) [] none =
      .response ⟨200, [("handle", .jStr "alice"), ("exists", .jBool false),
                       ("available", .jBool true)]⟩ :=
  ⟨rfl, rfl⟩

/-- C3 counterexample: a Register request whose `username` is the JSON
number `1` (present, truthy, not a string) does not get an HTTP 400
response — `username.trim()` throws a `TypeError` outside the `try`
block — although no row is inserted. -/
theorem register_nonstring_no_400 :
    (registerUser hash0
      ⟨some (.jNum 1), some (.jStr "a@x.com"), some (.jStr "pw"),
       some (.jStr "@a")⟩ [] none 1 0).1 = .exception ∧
    (registerUser hash0
      ⟨some (.jNum 1), some (.jStr "a@x.com"), some (.jStr "pw"),
       some (.jStr "@a")⟩ [] none 1 0).1.statusOf ≠ some 400 ∧
    (registerUser hash0
      ⟨some (.jNum 1), some (.jStr "a@x.com"), some (.jStr "pw"),
       some (.jStr "@a")⟩ [] none 1 0).2 = [] :=
  ⟨rfl, by decide, rfl⟩

/-- C3 amended: a Register request in which some field is absent, falsy
or a string trimming to empty never touches the store (no row inserted),
and whenever no field is a truthy non-string — the case the code can
validate without throwing — it responds HTTP 400 before any store
access; a truthy non-string field instead raises an uncaught TypeError
(still without any insertion). -/
theorem register_invalid_rejected
    (hash : String → Nat → String) (req : RegisterRequest)
    (store : List UserRow) (dbErr : Option String) (freshId now : Nat)
    (hbad : (isValidField req.username && isValidField req.email &&
             isValidField req.password && isValidField req.handle) = false) :
    (registerUser hash req store dbErr freshId now).2 = store ∧
    ((strOrFalsy req.username && strOrFalsy req.email &&
      strOrFalsy req.password && strOrFalsy req.handle) = true →
      (registerUser hash req store dbErr freshId now).1.statusOf =
        some 400) := by
  unfold registerUser
  split
  · exact ⟨rfl, fun _ => rfl⟩
  · next hguard =>
    have hg : (optTruthy req.username && optTruthy req.email &&
               optTruthy req.password && optTruthy req.handle) = true := by
      simpa using hguard
    simp only [Bool.and_eq_true] at hg
    split
    · next heq =>
      refine ⟨rfl, fun hsf => ?_⟩
      exfalso
      simp only [Bool.and_eq_true] at hsf
      have hsome : ∀ f ∈ [req.username, req.email, req.password, req.handle],
          (jsTrim f).isSome = true := by
        intro f hf
        simp only [List.mem_cons, List.not_mem_nil, or_false] at hf
        rcases hf with rfl | rfl | rfl | rfl
        · exact jsTrim_isSome_of_strOrFalsy_truthy _ hsf.1.1.1 hg.1.1.1
        · exact jsTrim_isSome_of_strOrFalsy_truthy _ hsf.1.1.2 hg.1.1.2
        · exact jsTrim_isSome_of_strOrFalsy_truthy _ hsf.1.2 hg.1.2
        · exact jsTrim_isSome_of_strOrFalsy_truthy _ hsf.2 hg.2
      obtain ⟨b, hb⟩ := anyTrimEmpty_ne_error _ hsome
      rw [heq] at hb
      cases hb
    · exact ⟨rfl, fun _ => rfl⟩
    · next heq =>
      exfalso
      have hall := (anyTrimEmpty_ok_false_iff _).mp heq
      have h1 := hall req.username (by simp)
      have h2 := hall req.email (by simp)
      have h3 := hall req.password (by simp)
      have h4 := hall req.handle (by simp)
      simp [h1, h2, h3, h4] at hbad

/-- Witness for C3 amended: empty-string username, rest valid. -/
theorem register_invalid_rejected_witness :
    (isValidField (some (.jStr "")) && isValidField (some (.jStr "a@x.com")) &&
     isValidField (some (.jStr "pw")) && isValidField (some (.jStr "@a"))) =
      false ∧
    (registerUser hash0
      ⟨some (.jStr ""), some (.jStr "a@x.com"), some (.jStr "pw"),
       some (.jStr "@a")⟩ [] none 1 0).2 = [] ∧
    ((strOrFalsy (some (.jStr "")) && strOrFalsy (some (.jStr "a@x.com")) &&
      strOrFalsy (some (.jStr "pw")) && strOrFalsy (some (.jStr "@a"))) =
        true →
      (registerUser hash0
        ⟨some (.jStr ""), some (.jStr "a@x.com"), some (.jStr "pw"),
         some (.jStr "@a")⟩ [] none 1 0).1.statusOf = some 400) := by
  refine ⟨by decide, ?_, ?_⟩
  · exact (register_invalid_rejected hash0
      ⟨some (.jStr ""), some (.jStr "a@x.com"), some (.jStr "pw"),
       some (.jStr "@a")⟩ [] none 1 0 (by decide)).1
  · exact (register_invalid_rejected hash0
      ⟨some (.jStr ""), some (.jStr "a@x.com"), some (.jStr "pw"),
       some (.jStr "@a")⟩ [] none 1 0 (by decide)).2

/-- C4: when no user row matches the identifier, and equally when a row
matches but adaptive-hash verification of the supplied password fails,
Login responds 401 with the identical body
`{error: "Invalid credentials"}`. -/
theorem login_unknown_and_wrong_password_alike
    (compare : String → String → Bool)
    (sign : Nat → String → String → String) (bcryptErr : String)
    (idv pw : String) (store : List UserRow)
    (hid : idv ≠ "") (hpw : pw ≠ "") :
    (loginQuery store idv = [] →
      loginUser compare sign bcryptErr
        ⟨some (.jStr idv), some (.jStr pw)⟩ store none =
        .response ⟨401, [("error", .jStr "Invalid credentials")]⟩) ∧
    (∀ user : UserRow, (loginQuery store idv).head? = some user →
      compare pw user.password_hash = false →
      loginUser compare sign bcryptErr
        ⟨some (.jStr idv), some (.jStr pw)⟩ store none =
        .response ⟨401, [("error", .jStr "Invalid credentials")]⟩) := by
  constructor
  · intro hnone
    simp [loginUser, optTruthy, paramString, hid, hpw, hnone]
  · intro user huser hcmp
    simp [loginUser, optTruthy, paramString, hid, hpw, huser, hcmp]

/-- Witness for C4: unknown identifier on an empty store, and wrong
password against the stored `demoRow`. -/
theorem login_unknown_and_wrong_password_alike_witness :
    (loginUser compare0 sign0 ""
      ⟨some (.jStr "ghost"), some (.jStr "pw")⟩ [] none =
      .response ⟨401, [("error", .jStr "Invalid credentials")]⟩) ∧
    (loginUser compare0 sign0 ""
      ⟨some (.jStr "alice"), some (.jStr "bad")⟩ [demoRow] none =
      .response ⟨401, [("error", .jStr "Invalid credentials")]⟩) :=
  ⟨(login_unknown_and_wrong_password_alike compare0 sign0 "" "ghost" "pw" []
      (by decide) (by decide)).1 rfl,
   (login_unknown_and_wrong_password_alike compare0 sign0 "" "alice" "bad"
      [demoRow] (by decide) (by decide)).2 demoRow rfl rfl⟩

/-- C5: a valid Register whose insert succeeds hashes the plaintext with
cost factor 10, inserts exactly one row with the four supplied fields
plus that hash, responds 201 `{message: "User created successfully"}`,
and — under the bcrypt round-trip properties — the stored hash verifies
against the plaintext and differs from it as a literal string. -/
theorem register_success_hashed_row
    (hash : String → Nat → String) (compare : String → String → Bool)
    (u e p h : String) (store : List UserRow) (freshId now : Nat)
    (hu : jsStrTrim u ≠ "") (he : jsStrTrim e ≠ "") (hp : jsStrTrim p ≠ "")
    (hh : jsStrTrim h ≠ "")
    (hcmp : compare p (hash p 10) = true) (hne : hash p 10 ≠ p) :
    registerUser hash
      ⟨some (.jStr u), some (.jStr e), some (.jStr p), some (.jStr h)⟩
      store none freshId now =
      (.response ⟨201, [("message", .jStr "User created successfully")]⟩,
       store ++ [{ id := freshId, username := u, email := e, handle := h,
                   password_hash := hash p 10, created_at := now,
                   updated_at := now }]) ∧
    compare p (UserRow.password_hash
      { id := freshId, username := u, email := e, handle := h,
        password_hash := hash p 10, created_at := now,
        updated_at := now }) = true ∧
    UserRow.password_hash
      { id := freshId, username := u, email := e, handle := h,
        password_hash := hash p 10, created_at := now,
        updated_at := now } ≠ p :=
  ⟨registerUser_valid_eq hash u e p h store freshId now hu he hp hh,
   hcmp, hne⟩

/-- Witness for C5 at `hash0`/`compare0` with password `"pw"`. -/
theorem register_success_hashed_row_witness :
    registerUser hash0
      ⟨some (.jStr "alice"), some (.jStr "alice@x.com"), some (.jStr "pw"),
       some (.jStr "@alice")⟩ [] none 1 0 =
      (.response ⟨201, [("message", .jStr "User created successfully")]⟩,
       [] ++ [{ id := 1, username := "alice", email := "alice@x.com",
                handle := "@alice", password_hash := hash0 "pw" 10,
                created_at := 0, updated_at := 0 }]) ∧
    compare0 "pw" (UserRow.password_hash
      { id := 1, username := "alice", email := "alice@x.com",
        handle := "@alice", password_hash := hash0 "pw" 10,
        created_at := 0, updated_at := 0 }) = true ∧
    UserRow.password_hash
      { id := 1, username := "alice", email := "alice@x.com",
        handle := "@alice", password_hash := hash0 "pw" 10,
        created_at := 0, updated_at := 0 } ≠ "pw" :=
  register_success_hashed_row hash0 compare0 "alice" "alice@x.com" "pw"
    "@alice" [] 1 0 (by decide) (by decide) (by decide) (by decide) rfl
    (by decide)

/-- C6: a username- or email-availability check on a non-empty-after-trim
string echoes the value back verbatim with HTTP 200, reports `exists`
true exactly when a row with that exact column value is present (no
normalization), and always returns `available = !exists`. -/
theorem availability_echo_exact_match
    (isDev : Bool) (v : String) (store : List UserRow)
    (hv : jsStrTrim v ≠ "") :
    (checkUsernameAvailability isDev (some (.jStr v)) store none =
      .response ⟨200, [("username", .jStr v),
        ("exists", .jBool (decide (0 < (selectUsername store v).length))),
        ("available",
         .jBool (!(decide (0 < (selectUsername store v).length))))]⟩) ∧
    ((0 < (selectUsername store v).length) ↔ ∃ r ∈ store, r.username = v) ∧
    (checkEmailAvailability isDev (some (.jStr v)) store none =
      .response ⟨200, [("email", .jStr v),
        ("exists", .jBool (decide (0 < (selectEmail store v).length))),
        ("available",
         .jBool (!(decide (0 < (selectEmail store v).length))))]⟩) ∧
    ((0 < (selectEmail store v).length) ↔ ∃ r ∈ store, r.email = v) := by
  refine ⟨?_, ?_, ?_, ?_⟩
  · simp [checkUsernameAvailability, isValidField, getStr, hv]
  · rw [selectUsername, List.length_map]
    simpa using length_filter_pos_iff (fun r => r.username == v) store
  · simp [checkEmailAvailability, isValidField, getStr, hv]
  · rw [selectEmail, List.length_map]
    simpa using length_filter_pos_iff (fun r => r.email == v) store

/-- Witness for C6: value `"alice"` against the store `[demoRow]`. -/
theorem availability_echo_exact_match_witness :
    (checkUsernameAvailability false (some (.jStr "alice")) [demoRow] none =
      .response ⟨200, [("username", .jStr "alice"),
        ("exists",
         .jBool (decide (0 < (selectUsername [demoRow] "alice").length))),
        ("available",
         .jBool (!(decide
           (0 < (selectUsername [demoRow] "alice").length))))]⟩) ∧
    (checkEmailAvailability false (some (.jStr "alice")) [demoRow] none =
      .response ⟨200, [("email", .jStr "alice"),
        ("exists",
         .jBool (decide (0 < (selectEmail [demoRow] "alice").length))),
        ("available",
         .jBool (!(decide
           (0 < (selectEmail [demoRow] "alice").length))))]⟩) :=
  ⟨(availability_echo_exact_match false "alice" [demoRow] (by decide)).1,
   (availability_echo_exact_match false "alice" [demoRow]
     (by decide)).2.2.1⟩

/-- C7 counterexample: for the handle kind the 400 message is
`"Handle is required and it must be a non-empty string"`, which is not
the claimed kind-specific pattern
`"Handle is required and must be a non-empty string"`. -/
theorem handle_message_deviates :
    checkHandleAvailability false (some (.jStr "")) [] none =
      .response ⟨400, [("error",
        .jStr "Handle is required and it must be a non-empty string")]⟩ ∧
    "Handle is required and it must be a non-empty string" ≠
      "Handle is required and must be a non-empty string" :=
  ⟨rfl, by decide⟩

/-- C7 amended: a missing, non-string or trims-to-empty value yields
HTTP 400 with the kind-specific message for every kind; for username and
email the message follows the claimed pattern
`"<Kind> is required and must be a non-empty string"` (so the concrete
email scenario holds verbatim), while the handle message reads
`"Handle is required and it must be a non-empty string"`. -/
theorem availability_validation_messages
    (isDev : Bool) (v : Option JValue) (store : List UserRow)
    (dbErr : Option String) (hv : isValidField v = false) :
    (checkUsernameAvailability isDev v store dbErr =
      .response ⟨400, [("error",
        .jStr "Username is required and must be a non-empty string")]⟩) ∧
    (checkEmailAvailability isDev v store dbErr =
      .response ⟨400, [("error",
        .jStr "Email is required and must be a non-empty string")]⟩) ∧
    (checkHandleAvailability isDev v store dbErr =
      .response ⟨400, [("error",
        .jStr "Handle is required and it must be a non-empty string")]⟩) := by
  refine ⟨?_, ?_, ?_⟩ <;>
    simp [checkUsernameAvailability, checkEmailAvailability,
      checkHandleAvailability, hv]

/-- Witness for C7 amended: the concrete spec scenario
`CheckAvailability("email", "")`. -/
theorem availability_validation_messages_witness :
    isValidField (some (.jStr "")) = false ∧
    checkEmailAvailability false (some (.jStr "")) [] none =
      .response ⟨400, [("error",
        .jStr "Email is required and must be a non-empty string")]⟩ :=
  ⟨rfl,
   (availability_validation_messages false (some (.jStr "")) [] none
     rfl).2.1⟩

/-- C8: the login lookup matches rows where
`email = identifier OR username = identifier`, so a registered user —
uniquely matched by either value in the store — can log in with either
the username or the email as the single identifier, given the correct
password. -/
theorem login_by_username_or_email
    (compare : String → String → Bool)
    (sign : Nat → String → String → String) (bcryptErr : String)
    (u : UserRow) (store : List UserRow) (pw : String)
    (hu : u ∈ store) (hpw : pw ≠ "")
    (hun : u.username ≠ "") (hem : u.email ≠ "")
    (hcmp : compare pw u.password_hash = true)
    (huniqU : ∀ v ∈ store,
      (v.email == u.username || v.username == u.username) = true → v = u)
    (huniqE : ∀ v ∈ store,
      (v.email == u.email || v.username == u.email) = true → v = u) :
    (loginUser compare sign bcryptErr
      ⟨some (.jStr u.username), some (.jStr pw)⟩ store none =
      .response ⟨200, [("token", .jStr (sign u.id u.username u.email)),
                       ("user", .jObj (sanitizedUser u))]⟩) ∧
    (loginUser compare sign bcryptErr
      ⟨some (.jStr u.email), some (.jStr pw)⟩ store none =
      .response ⟨200, [("token", .jStr (sign u.id u.username u.email)),
                       ("user", .jObj (sanitizedUser u))]⟩) := by
  have h1 : (loginQuery store u.username).head? = some u :=
    head_filter_eq_of_unique _ store u hu (by simp) huniqU
  have h2 : (loginQuery store u.email).head? = some u :=
    head_filter_eq_of_unique _ store u hu (by simp) huniqE
  constructor
  · simp [loginUser, optTruthy, paramString, hun, hpw, h1, hcmp]
  · simp [loginUser, optTruthy, paramString, hem, hpw, h2, hcmp]

/-- Witness for C8: `demoRow` logs in with both its username and its
email against the singleton store. -/
theorem login_by_username_or_email_witness :
    (loginUser compare0 sign0 ""
      ⟨some (.jStr demoRow.username), some (.jStr "pw")⟩ [demoRow] none =
      .response ⟨200,
        [("token", .jStr (sign0 demoRow.id demoRow.username demoRow.email)),
         ("user", .jObj (sanitizedUser demoRow))]⟩) ∧
    (loginUser compare0 sign0 ""
      ⟨some (.jStr demoRow.email), some (.jStr "pw")⟩ [demoRow] none =
      .response ⟨200,
        [("token", .jStr (sign0 demoRow.id demoRow.username demoRow.email)),
         ("user", .jObj (sanitizedUser demoRow))]⟩) :=
  login_by_username_or_email compare0 sign0 "" demoRow [demoRow] "pw"
    (List.mem_singleton.mpr rfl) (by decide) (by decide) (by decide) rfl
    (fun v hv _ => List.mem_singleton.mp hv)
    (fun v hv _ => List.mem_singleton.mp hv)

/-- C9: after a successful `Register(u, e, p, h)`, a username
availability check for `u` on the resulting store returns
`exists = true` and `available = false`. -/
theorem register_then_username_taken
    (hash : String → Nat → String) (isDev : Bool) (u e p h : String)
    (store : List UserRow) (freshId now : Nat)
    (hu : jsStrTrim u ≠ "") (he : jsStrTrim e ≠ "") (hp : jsStrTrim p ≠ "")
    (hh : jsStrTrim h ≠ "") :
    checkUsernameAvailability isDev (some (.jStr u))
      ((registerUser hash
        ⟨some (.jStr u), some (.jStr e), some (.jStr p), some (.jStr h)⟩
        store none freshId now).2) none =
      .response ⟨200, [("username", .jStr u), ("exists", .jBool true),
                       ("available", .jBool false)]⟩ := by
  rw [registerUser_valid_eq hash u e p h store freshId now hu he hp hh]
  have hex : (0 <
      (selectUsername
        (store ++ [{ id := freshId, username := u, email := e, handle := h,
                     password_hash := hash p 10, created_at := now,
                     updated_at := now }]) u).length) := by
    rw [selectUsername, List.length_map]
    exact (length_filter_pos_iff _ _).mpr
      ⟨{ id := freshId, username := u, email := e, handle := h,
         password_hash := hash p 10, created_at := now, updated_at := now },
       by simp, by simp⟩
  simp [checkUsernameAvailability, isValidField, getStr, hu, hex]

/-- Witness for C9 at a concrete registration. -/
theorem register_then_username_taken_witness :
    checkUsernameAvailability false (some (.jStr "alice"))
      ((registerUser hash0
        ⟨some (.jStr "alice"), some (.jStr "alice@x.com"), some (.jStr "pw"),
         some (.jStr "@alice")⟩ [] none 1 0).2) none =
      .response ⟨200, [("username", .jStr "alice"), ("exists", .jBool true),
                       ("available", .jBool false)]⟩ :=
  register_then_username_taken hash0 false "alice" "alice@x.com" "pw"
    "@alice" [] 1 0 (by decide) (by decide) (by decide) (by decide)

/-- C10: Register validates on trimmed values but stores untrimmed
ones: an accepted registration inserts the four field values exactly as
supplied (so surrounding whitespace survives verbatim), while a field
that is empty or all-whitespace is rejected with HTTP 400 and no
insertion. -/
theorem register_stores_untrimmed
    (hash : String → Nat → String) (u e p h : String)
    (store : List UserRow) (freshId now : Nat)
    (hu : jsStrTrim u ≠ "") (he : jsStrTrim e ≠ "") (hp : jsStrTrim p ≠ "")
    (hh : jsStrTrim h ≠ "") :
    (registerUser hash
      ⟨some (.jStr u), some (.jStr e), some (.jStr p), some (.jStr h)⟩
      store none freshId now).2 =
      store ++ [{ id := freshId, username := u, email := e, handle := h,
                  password_hash := hash p 10, created_at := now,
                  updated_at := now }] ∧
    (∀ w : String, jsStrTrim w = "" →
      (registerUser hash
        ⟨some (.jStr w), some (.jStr e), some (.jStr p), some (.jStr h)⟩
        store none freshId now).1.statusOf = some 400 ∧
      (registerUser hash
        ⟨some (.jStr w), some (.jStr e), some (.jStr p), some (.jStr h)⟩
        store none freshId now).2 = store) := by
  have he' : e ≠ "" := fun h0 => he (by rw [h0]; decide)
  have hp' : p ≠ "" := fun h0 => hp (by rw [h0]; decide)
  have hh' : h ≠ "" := fun h0 => hh (by rw [h0]; decide)
  refine ⟨by
    rw [registerUser_valid_eq hash u e p h store freshId now hu he hp hh],
    ?_⟩
  intro w hw
  by_cases hw0 : w = ""
  · subst hw0
    constructor <;> simp [registerUser, optTruthy, ControllerOutcome.statusOf]
  · constructor <;>
      simp [registerUser, optTruthy, anyTrimEmpty, jsTrim, hw, hw0,
        he', hp', hh', ControllerOutcome.statusOf]

/-- Witness for C10: username `" alice "` is stored verbatim and differs
from its trimmed form; username `" "` is rejected. -/
theorem register_stores_untrimmed_witness :
    (registerUser hash0
      ⟨some (.jStr " alice "), some (.jStr "alice@x.com"),
       some (.jStr "pw"), some (.jStr "@alice")⟩ [] none 1 0).2 =
      [] ++ [{ id := 1, username := " alice ", email := "alice@x.com",
               handle := "@alice", password_hash := hash0 "pw" 10,
               created_at := 0, updated_at := 0 }] ∧
    " alice " ≠ jsStrTrim " alice " ∧
    (registerUser hash0
      ⟨some (.jStr " "), some (.jStr "alice@x.com"), some (.jStr "pw"),
       some (.jStr "@alice")⟩ [] none 1 0).1.statusOf = some 400 ∧
    (registerUser hash0
      ⟨some (.jStr " "), some (.jStr "alice@x.com"), some (.jStr "pw"),
       some (.jStr "@alice")⟩ [] none 1 0).2 = [] := by
  have h10 := register_stores_untrimmed hash0 " alice " "alice@x.com" "pw"
    "@alice" [] 1 0 (by decide) (by decide) (by decide) (by decide)
  exact ⟨h10.1, by decide, (h10.2 " " (by decide)).1, (h10.2 " " (by decide)).2⟩
